import Mathlib

/-!
Verification of the LGE sdm845 fingerprint AIDL session shim
(src/aidl/fingerprint/Session.cpp) against its design specification.

The shim translates requests of the modern AIDL biometrics API into calls
on the legacy fingerprint HAL, and translates legacy driver notifications
back into AIDL session callbacks.  The development below is a shallow
embedding: each C++ function of Session.cpp is rendered as a Lean function
over explicit state, callback invocations are recorded as lists, and the
legacy HAL's numeric constants (from hardware/fingerprint.h, the external
header the shim compiles against) are fixed integers.
-/

namespace LgeFp

/-! ### Legacy HAL constants (hardware/fingerprint.h) -/

def FINGERPRINT_ERROR_HW_UNAVAILABLE : Int := 1
def FINGERPRINT_ERROR_UNABLE_TO_PROCESS : Int := 2
def FINGERPRINT_ERROR_TIMEOUT : Int := 3
def FINGERPRINT_ERROR_NO_SPACE : Int := 4
def FINGERPRINT_ERROR_CANCELED : Int := 5
def FINGERPRINT_ERROR_UNABLE_TO_REMOVE : Int := 6
def FINGERPRINT_ERROR_LOCKOUT : Int := 7
def FINGERPRINT_ERROR_VENDOR_BASE : Int := 1000

def FINGERPRINT_ACQUIRED_GOOD : Int := 0
def FINGERPRINT_ACQUIRED_PARTIAL : Int := 1
def FINGERPRINT_ACQUIRED_INSUFFICIENT : Int := 2
def FINGERPRINT_ACQUIRED_IMAGER_DIRTY : Int := 3
def FINGERPRINT_ACQUIRED_TOO_SLOW : Int := 4
def FINGERPRINT_ACQUIRED_TOO_FAST : Int := 5
def FINGERPRINT_ACQUIRED_VENDOR_BASE : Int := 1000

/-! ### AIDL vocabulary -/

/-- The AIDL `Error` kinds the shim produces. -/
inductive Error where
  | HW_UNAVAILABLE
  | UNABLE_TO_PROCESS
  | TIMEOUT
  | NO_SPACE
  | CANCELED
  | UNABLE_TO_REMOVE
  | VENDOR
  deriving DecidableEq

/-- The AIDL `AcquiredInfo` kinds the shim produces. -/
inductive AcquiredInfo where
  | GOOD
  | PARTIAL
  | INSUFFICIENT
  | SENSOR_DIRTY
  | TOO_SLOW
  | TOO_FAST
  | VENDOR
  deriving DecidableEq

/-- One invocation of the client-facing ISessionCallback. -/
inductive Callback where
  | onChallengeGenerated (challenge : Int)
  | onChallengeRevoked (challenge : Int)
  | onError (e : Error) (vendorCode : Int)
  | onLockoutPermanent
  | onLockoutCleared
  | onAcquired (info : AcquiredInfo) (vendorCode : Int)
  | onEnrollmentProgress (remaining : Int)
  | onEnrollmentsRemoved (fids : List Int)
  | onEnrollmentsEnumerated (fids : List Int)
  | onAuthenticationSucceeded (fid : Int) (token : List Nat)
  | onAuthenticationFailed
  | onSessionClosed
  deriving DecidableEq

/-- One call into the legacy driver (the Device Handle). -/
inductive DriverCall where
  | preEnroll
  | postEnroll
  | enroll
  | authenticate (operationId : Int) (userId : Int)
  | enumerate
  | remove (userId : Int) (fid : Int)
  | getAuthenticatorId
  deriving DecidableEq

/-- Binder status returned to the AIDL caller. -/
inductive Status where
  | ok
  | unsupportedOperation
  deriving DecidableEq

/-! ### Translators (Session.cpp lines 226-280) -/

/-- Embeds `Session::VendorErrorFilter` (Session.cpp lines 226-251): the
switch over the legacy error code, the vendor-base range check in the
default arm, and the fallthrough to `UNABLE_TO_PROCESS`.  The C++ out
parameter `vendorCode` is the second component of the result. -/
def VendorErrorFilter (error : Int) : Error × Int :=
  if error = FINGERPRINT_ERROR_HW_UNAVAILABLE then (Error.HW_UNAVAILABLE, 0)
  else if error = FINGERPRINT_ERROR_UNABLE_TO_PROCESS then (Error.UNABLE_TO_PROCESS, 0)
  else if error = FINGERPRINT_ERROR_TIMEOUT then (Error.TIMEOUT, 0)
  else if error = FINGERPRINT_ERROR_NO_SPACE then (Error.NO_SPACE, 0)
  else if error = FINGERPRINT_ERROR_CANCELED then (Error.CANCELED, 0)
  else if error = FINGERPRINT_ERROR_UNABLE_TO_REMOVE then (Error.UNABLE_TO_REMOVE, 0)
  else if FINGERPRINT_ERROR_VENDOR_BASE ≤ error then
    (Error.VENDOR, error - FINGERPRINT_ERROR_VENDOR_BASE)
  else (Error.UNABLE_TO_PROCESS, 0)

/-- Embeds `Session::VendorAcquiredFilter` (Session.cpp lines 255-280). -/
def VendorAcquiredFilter (info : Int) : AcquiredInfo × Int :=
  if info = FINGERPRINT_ACQUIRED_GOOD then (AcquiredInfo.GOOD, 0)
  else if info = FINGERPRINT_ACQUIRED_PARTIAL then (AcquiredInfo.PARTIAL, 0)
  else if info = FINGERPRINT_ACQUIRED_INSUFFICIENT then (AcquiredInfo.INSUFFICIENT, 0)
  else if info = FINGERPRINT_ACQUIRED_IMAGER_DIRTY then (AcquiredInfo.SENSOR_DIRTY, 0)
  else if info = FINGERPRINT_ACQUIRED_TOO_SLOW then (AcquiredInfo.TOO_SLOW, 0)
  else if info = FINGERPRINT_ACQUIRED_TOO_FAST then (AcquiredInfo.TOO_FAST, 0)
  else if FINGERPRINT_ACQUIRED_VENDOR_BASE ≤ info then
    (AcquiredInfo.VENDOR, info - FINGERPRINT_ACQUIRED_VENDOR_BASE)
  else (AcquiredInfo.INSUFFICIENT, 0)

/-- The legacy error codes the switch of `VendorErrorFilter` names as cases. -/
def legacyErrorTable : List Int :=
  [FINGERPRINT_ERROR_HW_UNAVAILABLE, FINGERPRINT_ERROR_UNABLE_TO_PROCESS,
   FINGERPRINT_ERROR_TIMEOUT, FINGERPRINT_ERROR_NO_SPACE,
   FINGERPRINT_ERROR_CANCELED, FINGERPRINT_ERROR_UNABLE_TO_REMOVE]

/-- The legacy acquired-info codes the switch of `VendorAcquiredFilter`
names as cases. -/
def legacyAcquiredTable : List Int :=
  [FINGERPRINT_ACQUIRED_GOOD, FINGERPRINT_ACQUIRED_PARTIAL,
   FINGERPRINT_ACQUIRED_INSUFFICIENT, FINGERPRINT_ACQUIRED_IMAGER_DIRTY,
   FINGERPRINT_ACQUIRED_TOO_SLOW, FINGERPRINT_ACQUIRED_TOO_FAST]

/-- C1: every legacy error code in the mapping table is translated to the
corresponding AIDL Error kind with vendorCode 0; every code outside the
table that is at least the vendor-base threshold yields `VENDOR` with
vendorCode = code - threshold; every other unmapped code yields
`UNABLE_TO_PROCESS` with vendorCode 0. -/
theorem vendorErrorFilter_spec (e : Int) :
    VendorErrorFilter FINGERPRINT_ERROR_HW_UNAVAILABLE = (Error.HW_UNAVAILABLE, 0)
    ∧ VendorErrorFilter FINGERPRINT_ERROR_UNABLE_TO_PROCESS = (Error.UNABLE_TO_PROCESS, 0)
    ∧ VendorErrorFilter FINGERPRINT_ERROR_TIMEOUT = (Error.TIMEOUT, 0)
    ∧ VendorErrorFilter FINGERPRINT_ERROR_NO_SPACE = (Error.NO_SPACE, 0)
    ∧ VendorErrorFilter FINGERPRINT_ERROR_CANCELED = (Error.CANCELED, 0)
    ∧ VendorErrorFilter FINGERPRINT_ERROR_UNABLE_TO_REMOVE = (Error.UNABLE_TO_REMOVE, 0)
    ∧ (e ∉ legacyErrorTable → FINGERPRINT_ERROR_VENDOR_BASE ≤ e →
        VendorErrorFilter e = (Error.VENDOR, e - FINGERPRINT_ERROR_VENDOR_BASE))
    ∧ (e ∉ legacyErrorTable → e < FINGERPRINT_ERROR_VENDOR_BASE →
        VendorErrorFilter e = (Error.UNABLE_TO_PROCESS, 0)) := by
  refine ⟨by decide, by decide, by decide, by decide, by decide, by decide, ?_, ?_⟩
  · intro hmem hge
    simp only [legacyErrorTable, List.mem_cons, List.not_mem_nil, or_false, not_or,
      FINGERPRINT_ERROR_HW_UNAVAILABLE, FINGERPRINT_ERROR_UNABLE_TO_PROCESS,
      FINGERPRINT_ERROR_TIMEOUT, FINGERPRINT_ERROR_NO_SPACE,
      FINGERPRINT_ERROR_CANCELED, FINGERPRINT_ERROR_UNABLE_TO_REMOVE] at hmem
    obtain ⟨h1, h2, h3, h4, h5, h6⟩ := hmem
    simp only [VendorErrorFilter, FINGERPRINT_ERROR_HW_UNAVAILABLE,
      FINGERPRINT_ERROR_UNABLE_TO_PROCESS, FINGERPRINT_ERROR_TIMEOUT,
      FINGERPRINT_ERROR_NO_SPACE, FINGERPRINT_ERROR_CANCELED,
      FINGERPRINT_ERROR_UNABLE_TO_REMOVE, FINGERPRINT_ERROR_VENDOR_BASE] at *
    rw [if_neg h1, if_neg h2, if_neg h3, if_neg h4, if_neg h5, if_neg h6, if_pos hge]
  · intro hmem hlt
    simp only [legacyErrorTable, List.mem_cons, List.not_mem_nil, or_false, not_or,
      FINGERPRINT_ERROR_HW_UNAVAILABLE, FINGERPRINT_ERROR_UNABLE_TO_PROCESS,
      FINGERPRINT_ERROR_TIMEOUT, FINGERPRINT_ERROR_NO_SPACE,
      FINGERPRINT_ERROR_CANCELED, FINGERPRINT_ERROR_UNABLE_TO_REMOVE] at hmem
    obtain ⟨h1, h2, h3, h4, h5, h6⟩ := hmem
    simp only [VendorErrorFilter, FINGERPRINT_ERROR_HW_UNAVAILABLE,
      FINGERPRINT_ERROR_UNABLE_TO_PROCESS, FINGERPRINT_ERROR_TIMEOUT,
      FINGERPRINT_ERROR_NO_SPACE, FINGERPRINT_ERROR_CANCELED,
      FINGERPRINT_ERROR_UNABLE_TO_REMOVE, FINGERPRINT_ERROR_VENDOR_BASE] at *
    rw [if_neg h1, if_neg h2, if_neg h3, if_neg h4, if_neg h5, if_neg h6,
      if_neg (not_le.mpr hlt)]

/-- C8: every legacy acquired-info code in the mapping table is translated to
the corresponding AIDL AcquiredInfo kind with vendorCode 0; codes outside
the table at or above the acquired vendor-base threshold yield `VENDOR`
with vendorCode = code - threshold; every other unmapped code yields
`INSUFFICIENT` with vendorCode 0. -/
theorem vendorAcquiredFilter_spec (e : Int) :
    VendorAcquiredFilter FINGERPRINT_ACQUIRED_GOOD = (AcquiredInfo.GOOD, 0)
    ∧ VendorAcquiredFilter FINGERPRINT_ACQUIRED_PARTIAL = (AcquiredInfo.PARTIAL, 0)
    ∧ VendorAcquiredFilter FINGERPRINT_ACQUIRED_INSUFFICIENT = (AcquiredInfo.INSUFFICIENT, 0)
    ∧ VendorAcquiredFilter FINGERPRINT_ACQUIRED_IMAGER_DIRTY = (AcquiredInfo.SENSOR_DIRTY, 0)
    ∧ VendorAcquiredFilter FINGERPRINT_ACQUIRED_TOO_SLOW = (AcquiredInfo.TOO_SLOW, 0)
    ∧ VendorAcquiredFilter FINGERPRINT_ACQUIRED_TOO_FAST = (AcquiredInfo.TOO_FAST, 0)
    ∧ (e ∉ legacyAcquiredTable → FINGERPRINT_ACQUIRED_VENDOR_BASE ≤ e →
        VendorAcquiredFilter e = (AcquiredInfo.VENDOR, e - FINGERPRINT_ACQUIRED_VENDOR_BASE))
    ∧ (e ∉ legacyAcquiredTable → e < FINGERPRINT_ACQUIRED_VENDOR_BASE →
        VendorAcquiredFilter e = (AcquiredInfo.INSUFFICIENT, 0)) := by
  refine ⟨by decide, by decide, by decide, by decide, by decide, by decide, ?_, ?_⟩
  · intro hmem hge
    simp only [legacyAcquiredTable, List.mem_cons, List.not_mem_nil, or_false, not_or,
      FINGERPRINT_ACQUIRED_GOOD, FINGERPRINT_ACQUIRED_PARTIAL,
      FINGERPRINT_ACQUIRED_INSUFFICIENT, FINGERPRINT_ACQUIRED_IMAGER_DIRTY,
      FINGERPRINT_ACQUIRED_TOO_SLOW, FINGERPRINT_ACQUIRED_TOO_FAST] at hmem
    obtain ⟨h1, h2, h3, h4, h5, h6⟩ := hmem
    simp only [VendorAcquiredFilter, FINGERPRINT_ACQUIRED_GOOD,
      FINGERPRINT_ACQUIRED_PARTIAL, FINGERPRINT_ACQUIRED_INSUFFICIENT,
      FINGERPRINT_ACQUIRED_IMAGER_DIRTY, FINGERPRINT_ACQUIRED_TOO_SLOW,
      FINGERPRINT_ACQUIRED_TOO_FAST, FINGERPRINT_ACQUIRED_VENDOR_BASE] at *
    rw [if_neg h1, if_neg h2, if_neg h3, if_neg h4, if_neg h5, if_neg h6, if_pos hge]
  · intro hmem hlt
    simp only [legacyAcquiredTable, List.mem_cons, List.not_mem_nil, or_false, not_or,
      FINGERPRINT_ACQUIRED_GOOD, FINGERPRINT_ACQUIRED_PARTIAL,
      FINGERPRINT_ACQUIRED_INSUFFICIENT, FINGERPRINT_ACQUIRED_IMAGER_DIRTY,
      FINGERPRINT_ACQUIRED_TOO_SLOW, FINGERPRINT_ACQUIRED_TOO_FAST] at hmem
    obtain ⟨h1, h2, h3, h4, h5, h6⟩ := hmem
    simp only [VendorAcquiredFilter, FINGERPRINT_ACQUIRED_GOOD,
      FINGERPRINT_ACQUIRED_PARTIAL, FINGERPRINT_ACQUIRED_INSUFFICIENT,
      FINGERPRINT_ACQUIRED_IMAGER_DIRTY, FINGERPRINT_ACQUIRED_TOO_SLOW,
      FINGERPRINT_ACQUIRED_TOO_FAST, FINGERPRINT_ACQUIRED_VENDOR_BASE] at *
    rw [if_neg h1, if_neg h2, if_neg h3, if_neg h4, if_neg h5, if_neg h6,
      if_neg (not_le.mpr hlt)]

/-! ### Session state and lifecycle (Session.cpp lines 22-28, 139-144) -/

/-- The Session fields relevant to lifecycle: `mClosed` and whether the
binder death recipient is still registered. -/
structure Session where
  closed : Bool
  deathRecipientLive : Bool
  deriving DecidableEq

/-- Embeds `Session::isClosed` (the accessor used by `onClientDeath`). -/
def Session.isClosed (s : Session) : Bool := s.closed

/-- Embeds `Session::close` (Session.cpp lines 139-144): unconditionally
sets `mClosed`, emits `onSessionClosed`, and deletes the death recipient. -/
def Session.close (s : Session) : Session × List Callback :=
  ({ s with closed := true, deathRecipientLive := false }, [Callback.onSessionClosed])

/-- Embeds `onClientDeath` (Session.cpp lines 22-28): calls `close` only
when the session is not yet closed. -/
def onClientDeath (s : Session) : Session × List Callback :=
  if !s.isClosed then s.close else (s, [])

/-! ### Event Dispatcher (Session.cpp lines 282-363) -/

/-- A legacy driver notification, `fingerprint_msg_t`: one variant per
`msg->type` case handled by `Session::notify`. -/
inductive FingerprintMsg where
  | error (code : Int)
  | acquired (info : Int)
  | enrolling (samplesRemaining : Int)
  | removed (fid : Int)
  | authenticated (fid : Int) (hat : List Nat)
  | enumerating (fid : Int)
  deriving DecidableEq

/-- The state `Session::notify` reads: whether the global instance pointer
is set, whether the session callback is registered, and the session's
closed flag (which the C++ body never consults). -/
structure NotifyCtx where
  hasInstance : Bool
  hasCallback : Bool
  closed : Bool
  deriving DecidableEq

/-- Embeds `Session::notify` (Session.cpp lines 282-363).  The returned
list is the sequence of client callbacks the dispatcher invokes: empty when
the instance or the session callback is null, `onLockoutPermanent` for the
lockout-sentinel error, otherwise one callback per message as in the C++
switch. -/
def Session.notify (ctx : NotifyCtx) (msg : FingerprintMsg) : List Callback :=
  if !ctx.hasInstance || !ctx.hasCallback then []
  else
    match msg with
    | FingerprintMsg.error code =>
        if code = FINGERPRINT_ERROR_LOCKOUT then [Callback.onLockoutPermanent]
        else
          let r := VendorErrorFilter code
          [Callback.onError r.1 r.2]
    | FingerprintMsg.acquired info =>
        let r := VendorAcquiredFilter info
        [Callback.onAcquired r.1 r.2]
    | FingerprintMsg.enrolling samplesRemaining =>
        [Callback.onEnrollmentProgress samplesRemaining]
    | FingerprintMsg.removed fid =>
        [Callback.onEnrollmentsRemoved [fid]]
    | FingerprintMsg.authenticated fid hat =>
        if fid ≠ 0 then [Callback.onAuthenticationSucceeded fid hat]
        else [Callback.onAuthenticationFailed]
    | FingerprintMsg.enumerating fid =>
        [Callback.onEnrollmentsEnumerated [fid]]

/-! ### Lockout timer (Session.cpp lines 132-137, 197-220) -/

/-- An effect of the lockout machinery: a call into the external
LockoutTracker, or a client callback. -/
inductive LockoutEffect where
  | trackerReset (clearAttemptCounter : Bool)
  | cb (c : Callback)
  deriving DecidableEq

/-- The Session's lockout timer flags: `mIsLockoutTimerStarted` and
`mIsLockoutTimerAborted`. -/
structure LockoutSt where
  timerStarted : Bool
  timerAborted : Bool
  deriving DecidableEq

/-- Embeds `Session::clearLockout` (Session.cpp lines 197-200):
`mLockoutTracker.reset(clearAttemptCounter)` then `onLockoutCleared`. -/
def clearLockout (clearAttemptCounter : Bool) : List LockoutEffect :=
  [LockoutEffect.trackerReset clearAttemptCounter,
   LockoutEffect.cb Callback.onLockoutCleared]

/-- Embeds `Session::resetLockout` (Session.cpp lines 132-137):
`clearLockout(true)` then `mIsLockoutTimerAborted = true`. -/
def resetLockout (s : LockoutSt) : LockoutSt × List LockoutEffect :=
  ({ s with timerAborted := true }, clearLockout true)

/-- Embeds `Session::startLockoutTimer` (Session.cpp lines 202-212): clears
the abort flag, spawns the detached delayed action, sets the started flag.
The delayed action itself is `lockoutTimerExpired`, modelled separately so
a trace can fire it at any later point. -/
def startLockoutTimer (s : LockoutSt) : LockoutSt :=
  { s with timerStarted := true, timerAborted := false }

/-- Embeds `Session::lockoutTimerExpired` (Session.cpp lines 214-220): when
the abort flag is unset it performs `clearLockout(false)`; in all cases it
then clears both flags. -/
def lockoutTimerExpired (s : LockoutSt) : LockoutSt × List LockoutEffect :=
  if !s.timerAborted then
    ({ timerStarted := false, timerAborted := false }, clearLockout false)
  else
    ({ timerStarted := false, timerAborted := false }, [])

/-! ### Request operations (Session.cpp lines 90-96, 110-120, 163-165) -/

/-- The observable outcome of one synchronous Session request: the legacy
driver calls it issued, the client callbacks it invoked, the binder status
it returned, and whether it produced a cancellation signal. -/
structure ReqOutcome where
  driverCalls : List DriverCall
  callbacks : List Callback
  status : Status
  returnsCancellationSignal : Bool
  deriving DecidableEq

/-- Embeds `Session::detectInteraction` (Session.cpp lines 90-96): no
driver call, an immediate `onError(UNABLE_TO_PROCESS, 0)`, a fresh
CancellationSignal, and an ok status. -/
def detectInteraction : ReqOutcome :=
  { driverCalls := []
    callbacks := [Callback.onError Error.UNABLE_TO_PROCESS 0]
    status := Status.ok
    returnsCancellationSignal := true }

/-- Embeds `Session::onContextChanged` (Session.cpp lines 163-165), the one
operation that returns a non-ok status. -/
def onContextChanged : Status := Status.unsupportedOperation

/-- Embeds `Session::removeEnrollments` (Session.cpp lines 110-120): one
`mDevice->remove(mDevice, mUserId, enrollment)` per id, a log entry per
non-zero driver result, no client callback, and an unconditional ok
status. `driverRemove` is the legacy driver's remove operation. -/
def removeEnrollments (userId : Int) (driverRemove : Int → Int → Int) :
    List Int → ReqOutcome
  | [] =>
      { driverCalls := [], callbacks := [], status := Status.ok,
        returnsCancellationSignal := false }
  | fid :: rest =>
      let rest' := removeEnrollments userId driverRemove rest
      { driverCalls := DriverCall.remove userId fid :: rest'.driverCalls
        callbacks := rest'.callbacks
        status := Status.ok
        returnsCancellationSignal := false }

/-- The error codes `removeEnrollments` logs (ALOGE) along a run: the
non-zero results of the per-item driver calls.  Failures are only logged;
they do not alter the outcome. -/
def removeEnrollmentsLog (userId : Int) (driverRemove : Int → Int → Int) :
    List Int → List Int
  | [] => []
  | fid :: rest =>
      (if driverRemove userId fid ≠ 0 then [driverRemove userId fid] else [])
        ++ removeEnrollmentsLog userId driverRemove rest

/-! ### Claim theorems on the dispatcher, lifecycle, timer and requests -/

/-- C2 counterexample: with the session closed and the callback still
registered (exactly the state `close` leaves, since it nulls nothing), a
driver notification still produces a client callback, refuting the claim
that no callback is invoked after close. -/
theorem notify_after_close_dispatches :
    Session.notify { hasInstance := true, hasCallback := true, closed := true }
        (FingerprintMsg.acquired FINGERPRINT_ACQUIRED_GOOD)
      = [Callback.onAcquired AcquiredInfo.GOOD 0]
    ∧ Session.notify { hasInstance := true, hasCallback := true, closed := true }
        (FingerprintMsg.acquired FINGERPRINT_ACQUIRED_GOOD) ≠ [] := by
  exact ⟨by decide, by decide⟩

/-- C2 (amended): `notify` suppresses client callbacks only when the global
instance pointer or the session callback is null; it never consults the
closed flag, so a driver notification arriving after close (with the
callback still registered, as `close` leaves it) is dispatched exactly as
before close. -/
theorem notify_ignores_closed_flag (hi hc : Bool) (msg : FingerprintMsg) :
    Session.notify { hasInstance := hi, hasCallback := hc, closed := true } msg
      = Session.notify { hasInstance := hi, hasCallback := hc, closed := false } msg
    ∧ Session.notify { hasInstance := false, hasCallback := hc, closed := true } msg = []
    ∧ Session.notify { hasInstance := hi, hasCallback := false, closed := true } msg = [] := by
  refine ⟨rfl, rfl, ?_⟩
  cases hi <;> rfl

/-- C3 counterexample: invoking `close` twice in succession on a freshly
open session emits `onSessionClosed` both times — two notifications, not
one, refuting the idempotency claim. -/
theorem close_twice_two_notifications :
    ((Session.close { closed := false, deathRecipientLive := true }).2
        ++ (Session.close
              (Session.close { closed := false, deathRecipientLive := true }).1).2)
      = [Callback.onSessionClosed, Callback.onSessionClosed]
    ∧ ((Session.close { closed := false, deathRecipientLive := true }).2
        ++ (Session.close
              (Session.close { closed := false, deathRecipientLive := true }).1).2)
      ≠ [Callback.onSessionClosed] := by
  exact ⟨rfl, by decide⟩

/-- C3 (amended): every direct invocation of `close` sets the closed flag,
drops the death recipient and emits one `onSessionClosed` notification, so
two direct invocations emit two notifications; idempotency holds only on
the client-death path, where `onClientDeath` checks the closed flag and is
a no-op on an already-closed session. -/
theorem close_unconditional_death_guarded (s : Session) :
    Session.close s
      = ({ s with closed := true, deathRecipientLive := false },
         [Callback.onSessionClosed])
    ∧ onClientDeath { s with closed := true } = ({ s with closed := true }, []) := by
  exact ⟨rfl, rfl⟩

/-- C4 counterexample: with an earlier timer running, a restart clears the
abort flag, so the earlier timer's delayed completion firing after the
restart is not a no-op — it performs a lockout clear and an
`onLockoutCleared` notification. -/
theorem stale_timer_fire_after_restart_clears :
    (lockoutTimerExpired
        (startLockoutTimer { timerStarted := true, timerAborted := false })).2 ≠ []
    ∧ (lockoutTimerExpired
        (startLockoutTimer { timerStarted := true, timerAborted := true })).2
      = [LockoutEffect.trackerReset false,
         LockoutEffect.cb Callback.onLockoutCleared] := by
  exact ⟨by decide, rfl⟩

/-- C4 (amended): `startLockoutTimer` restarts with the abort flag freshly
cleared; precisely because the flag is cleared, an earlier timer's delayed
completion firing after the restart performs a lockout clear (with
clearAttemptCounter = false) and an `onLockoutCleared` notification, and
resets the started flag — it is not a no-op. -/
theorem startLockoutTimer_restart_behavior (s : LockoutSt) :
    startLockoutTimer s = { s with timerStarted := true, timerAborted := false }
    ∧ (lockoutTimerExpired (startLockoutTimer s)).2
      = [LockoutEffect.trackerReset false,
         LockoutEffect.cb Callback.onLockoutCleared]
    ∧ (lockoutTimerExpired (startLockoutTimer s)).1
      = { timerStarted := false, timerAborted := false } := by
  exact ⟨rfl, rfl, rfl⟩

/-- C5: an Error event carrying the legacy lockout sentinel is redirected
to the dedicated `onLockoutPermanent` callback, and the generic `onError`
callback is never invoked for that event. -/
theorem notify_lockout_sentinel (cl : Bool) :
    Session.notify { hasInstance := true, hasCallback := true, closed := cl }
        (FingerprintMsg.error FINGERPRINT_ERROR_LOCKOUT)
      = [Callback.onLockoutPermanent]
    ∧ ∀ e v, Callback.onError e v ∉
        Session.notify { hasInstance := true, hasCallback := true, closed := cl }
          (FingerprintMsg.error FINGERPRINT_ERROR_LOCKOUT) := by
  refine ⟨rfl, ?_⟩
  intro e v
  simp [Session.notify, FINGERPRINT_ERROR_LOCKOUT]

/-- C6: an Authenticated event with finger id 0 produces exactly the
`onAuthenticationFailed` callback (so neither `onError` nor
`onAuthenticationSucceeded`); with a non-zero finger id it produces exactly
`onAuthenticationSucceeded` with that id and the token bytes. -/
theorem notify_authenticated_dispatch (cl : Bool) (fid : Int) (hat : List Nat) :
    (fid = 0 →
      Session.notify { hasInstance := true, hasCallback := true, closed := cl }
          (FingerprintMsg.authenticated fid hat)
        = [Callback.onAuthenticationFailed])
    ∧ (fid ≠ 0 →
      Session.notify { hasInstance := true, hasCallback := true, closed := cl }
          (FingerprintMsg.authenticated fid hat)
        = [Callback.onAuthenticationSucceeded fid hat]) := by
  constructor
  · intro h
    simp [Session.notify, h]
  · intro h
    simp [Session.notify, h]

/-- C7: starting a lockout timer and then calling `resetLockout` before the
delayed action fires clears lockout immediately (tracker reset with
clearAttemptCounter = true, plus `onLockoutCleared`) and sets the abort
flag, so the delayed action, when it fires, performs no second clear and no
second notification. -/
theorem resetLockout_prevents_delayed_clear (s : LockoutSt) :
    (resetLockout (startLockoutTimer s)).2
      = [LockoutEffect.trackerReset true,
         LockoutEffect.cb Callback.onLockoutCleared]
    ∧ (resetLockout (startLockoutTimer s)).1.timerAborted = true
    ∧ (lockoutTimerExpired (resetLockout (startLockoutTimer s)).1).2 = [] := by
  exact ⟨rfl, rfl, rfl⟩

/-- C9: `detectInteraction` issues no legacy driver call, immediately
reports `onError(UNABLE_TO_PROCESS, 0)` to the client, and still returns a
cancellation signal and a success status. -/
theorem detectInteraction_capability_gap :
    detectInteraction.driverCalls = []
    ∧ detectInteraction.callbacks = [Callback.onError Error.UNABLE_TO_PROCESS 0]
    ∧ detectInteraction.status = Status.ok
    ∧ detectInteraction.returnsCancellationSignal = true := by
  exact ⟨rfl, rfl, rfl, rfl⟩

/-- C10: `removeEnrollments` issues exactly one legacy remove call per id,
in order, for every driver behaviour (so it continues through the whole
list when an earlier call fails), returns a success status regardless of
per-item failures, and sends no callback on account of a failure — the
non-zero results are only logged. -/
theorem removeEnrollments_per_item (userId : Int)
    (driverRemove : Int → Int → Int) (ids : List Int) :
    (removeEnrollments userId driverRemove ids).driverCalls
      = ids.map (fun fid => DriverCall.remove userId fid)
    ∧ (removeEnrollments userId driverRemove ids).status = Status.ok
    ∧ (removeEnrollments userId driverRemove ids).callbacks = [] := by
  induction ids with
  | nil => exact ⟨rfl, rfl, rfl⟩
  | cons fid rest ih =>
      refine ⟨?_, rfl, ?_⟩
      · simp [removeEnrollments, ih.1]
      · simp [removeEnrollments, ih.2.2]

end LgeFp
